import Mathlib

/-!
Verification development for the `tendril` connection-tracking library.

The Python sources under `tendril/` are shallowly embedded below:

* `tendril/manager.py`  — `TendrilManager` construction, `start`, `stop`,
  `shutdown`, tendril tracking (registries become association lists,
  greenlets become small records, raised exceptions become `Except PyErr`).
* `tendril/tcp.py`      — `TCPTendril._recv`, `_send` bookkeeping,
  `_thread_error`, `close`, `wrap`, and `TCPTendrilManager.connect` /
  `listener` (socket reads become a list of chunks, emitted side effects
  become explicit event traces).
* `tendril/tendril.py`  — `Tendril.close` / `Tendril.closed`.
* `tendril/application.py` — the declared `ApplicationState` interface.

The repository's `tendril/framers.py` module (the `LineFramer` /
`IdentityFramer` implementations and the `_recv_frameify` /
`_send_frameify` helpers it backs) is not part of the sources available
here, only its callers are; the line-framer definitions below are
modelled from the specification's description and are marked as such in
their doc comments.
-/

/-- Python exceptions that the embedded code can raise. -/
inductive PyErr
  | valueError (msg : String)
  | nameError (missing : String)
  | typeError
  | attributeError (attr : String)
  deriving DecidableEq, Repr

/- ---------------------------------------------------------------------
   Line framer (modelled from the spec; `tendril/framers.py` is not in
   the available sources)
--------------------------------------------------------------------- -/

/-- Delimiter of the default stream framer (line framer semantics). -/
def lineDelim : Char := '\n'

/-- Modelled from the spec: the missing `tendril/framers.py` `LineFramer`
receive direction.  "split on delimiter, delimiter stripped from output";
the result is the list of complete frames followed by the incomplete
trailing fragment, which "remains buffered". -/
def splitFrames : List Char → List (List Char) × List Char
  | [] => ([], [])
  | c :: rest =>
    if c = lineDelim then
      ([] :: (splitFrames rest).1, (splitFrames rest).2)
    else
      match (splitFrames rest).1 with
      | f :: fs => ((c :: f) :: fs, (splitFrames rest).2)
      | [] => ([], c :: (splitFrames rest).2)

/-- Modelled from the spec: the missing `LineFramer.to_frames` —
"`toFrames` consumes newly received bytes, appends them to internally
buffered partial data, and produces zero or more complete frames; an
incomplete trailing fragment remains buffered". -/
def lineToFrames (state input : List Char) : List (List Char) × List Char :=
  splitFrames (state ++ input)

/-- Modelled from the spec: the missing `LineFramer.to_bytes` —
"delimiter appended on serialize".  No rejection or escaping is applied
to the frame. -/
def lineToBytes (frame : List Char) : List Char :=
  frame ++ [lineDelim]

/-- Serialization of a whole sequence of frames, frame by frame. -/
def lineEncodeAll (frames : List (List Char)) : List Char :=
  (frames.map lineToBytes).flatten

/- ---------------------------------------------------------------------
   TendrilManager (tendril/manager.py)
--------------------------------------------------------------------- -/

/-- A manager identity: the `(proto, endpoint)` pair produced by
`TendrilManager._manager_key` (manager.py lines 219-225), with the
endpoint a `(host, port)` tuple. -/
abbrev MgrKey := String × (String × Nat)

/-- The module-level registries `_managers` / `_running_managers`
(manager.py lines 41-42), embedded as association lists from manager key
to a manager identifier. -/
abbrev MgrRegistry := List (MgrKey × Nat)

/-- Membership of a key in a registry. -/
def regHasKey (reg : MgrRegistry) (key : MgrKey) : Bool :=
  reg.any (fun kv => kv.1 = key)

/-- Deletion of a key from a registry; `try: del ... except KeyError:
pass` semantics (removing nothing when the key is absent). -/
def regErase (reg : MgrRegistry) (key : MgrKey) : MgrRegistry :=
  reg.filter (fun kv => kv.1 ≠ key)

/-- Where a greenlet's `link` callback points; `start` links the listen
thread to `self.stop` (manager.py line 175). -/
inductive LinkTgt
  | stop
  deriving DecidableEq, Repr

/-- Which function a spawned greenlet is running. -/
inductive SpawnedTask
  | listenerTask
  deriving DecidableEq, Repr

/-- The embedded residue of a `gevent.spawn` result: which task it runs
and which callbacks were linked onto it. -/
structure GThread where
  task : SpawnedTask
  links : List LinkTgt
  deriving DecidableEq, Repr

/-- The mutable attributes of one `TendrilManager` instance
(manager.py lines 85-101): protocol tag, endpoint, tracked-tendril
table (remote address to tendril identifier), running flag, and the
listen-thread slot. -/
structure MgrState where
  proto : String
  endpoint : String × Nat
  tendrils : List ((String × Nat) × Nat)
  running : Bool
  listenThread : Option GThread
  deriving DecidableEq, Repr

/-- `TendrilManager._manager_key` (manager.py lines 219-225). -/
def MgrState.managerKey (m : MgrState) : MgrKey :=
  (m.proto, m.endpoint)

/-- `TendrilManager.__init__` (manager.py lines 85-108): defaults the
endpoint to `('', 0)`, initializes the tendril table, running flag and
listen-thread slot, raises `ValueError` if an identical manager already
exists in `_managers`, and otherwise records itself there.  The raise
happens before the registry assignment, so on failure the registry is
returned unchanged. -/
def TendrilManager.init (proto : String) (endpoint : Option (String × Nat))
    (managers : MgrRegistry) (selfId : Nat) :
    Except PyErr MgrState × MgrRegistry :=
  let st : MgrState :=
    { proto := proto
      endpoint := endpoint.getD ("", 0)
      tendrils := []
      running := false
      listenThread := none }
  if regHasKey managers st.managerKey then
    (.error (.valueError "Identical TendrilManager already exists"), managers)
  else
    (.ok st, (st.managerKey, selfId) :: managers)

/-- `TendrilManager.start` (manager.py lines 136-175): raises
`ValueError` if `self.running` is set, raises `ValueError` if this
manager's key is already present in `_running_managers`, and otherwise
sets the running flag, registers itself among the running managers,
spawns the listener greenlet and links it to `self.stop`.  Both raises
happen before any mutation, so on failure the manager state and the
registry are returned unchanged. -/
def TendrilManager.start (m : MgrState) (runningReg : MgrRegistry)
    (selfId : Nat) : Except PyErr Unit × MgrState × MgrRegistry :=
  if m.running then
    (.error (.valueError "TendrilManager already running"), m, runningReg)
  else if regHasKey runningReg m.managerKey then
    (.error (.valueError "Identical TendrilManager already exists"), m, runningReg)
  else
    (.ok (),
     { m with running := true
              listenThread := some { task := .listenerTask, links := [.stop] } },
     (m.managerKey, selfId) :: runningReg)

/-- `TendrilManager.shutdown` (manager.py lines 195-217): removes the
manager from `_running_managers` (swallowing `KeyError`), then invokes
`self._listen_thread.kill()` unconditionally — when `_listen_thread` is
`None` (before `start`, or after a previous `shutdown` reset it) this
raises `AttributeError` and nothing further runs.  Otherwise it closes
every tracked tendril (returned here as the list of closed tendril
identifiers, in table order) and resets the tendril table, the running
flag and the listen-thread slot. -/
def TendrilManager.shutdown (m : MgrState) (runningReg : MgrRegistry) :
    Except PyErr Unit × MgrState × MgrRegistry × List Nat :=
  let reg' := regErase runningReg m.managerKey
  match m.listenThread with
  | none =>
      (.error (.attributeError "kill"), m, reg', [])
  | some _ =>
      (.ok (),
       { m with tendrils := [], running := false, listenThread := none },
       reg',
       m.tendrils.map Prod.snd)

/-- `TendrilManager.connect` (manager.py lines 227-248), the common
sanity checks run by concrete managers: the only check present is the
running-flag check; no address-family validation is performed here. -/
def TendrilManager.connect_base (running : Bool) : Except PyErr Unit :=
  if running then .ok () else .error (.valueError "TendrilManager not running")

/- ---------------------------------------------------------------------
   TCPTendril (tendril/tcp.py)
--------------------------------------------------------------------- -/

/-- The slots of a `TCPTendril` relevant to its close protocol
(tcp.py lines 40-51): whether the `_recv_thread` and `_send_thread`
slots hold a live greenlet and whether the `_sock` slot holds an open
socket. -/
structure TCPState where
  recvThread : Bool
  sendThread : Bool
  sock : Bool
  deriving DecidableEq, Repr

/-- Observable side effects of the TCP tendril's I/O engine, in program
order: killing one of the two greenlets, closing the socket, running
the base `Tendril.close` procedure (`super().close()`), delivering one
decoded frame to the application state, and invoking the
close-notification `closed(error)` with an optional error message. -/
inductive TCPEvent
  | killRecv
  | killSend
  | sockClose
  | baseClose
  | frame (f : List Char)
  | notify (err : Option String)
  deriving DecidableEq, Repr

/-- Whether an event is a frame delivery. -/
def TCPEvent.isFrame : TCPEvent → Bool
  | .frame _ => true
  | _ => false

/-- Whether an event is a close-notification. -/
def TCPEvent.isNotify : TCPEvent → Bool
  | .notify _ => true
  | _ => false

/-- `TCPTendril.close` (tcp.py lines 200-214): kill the receive greenlet
if its slot is set and clear the slot, likewise for the send greenlet,
close the socket if its slot is set and clear it, then run the base
`Tendril.close` (which only invokes the abstract `_close`, tendril.py
lines 116-120, and never the `closed()` notification).  Every operation
is guarded on its slot, so nothing here can raise. -/
def TCPTendril.close (t : TCPState) : TCPState × List TCPEvent :=
  ({ recvThread := false, sendThread := false, sock := false },
   (if t.recvThread then [TCPEvent.killRecv] else []) ++
   (if t.sendThread then [TCPEvent.killSend] else []) ++
   (if t.sock then [TCPEvent.sockClose] else []) ++
   [TCPEvent.baseClose])

/-- How a greenlet ended, as `TCPTendril._thread_error` distinguishes
the cases (tcp.py lines 130-151, with `Greenlet.successful()` /
`Greenlet.exception` behaving as the repository's unit tests mock them):
a normal return, a kill / `GreenletExit`, or an unhandled fault. -/
inductive ThreadExit
  | normal
  | killed
  | fault (msg : String)
  deriving DecidableEq, Repr

/-- Which of the tendril's two greenlets exited. -/
inductive ThreadId
  | recvT
  | sendT
  deriving DecidableEq, Repr

/-- `TCPTendril._thread_error` (tcp.py lines 130-151): first clear the
slot holding the exited greenlet (identity comparison against the slot,
so an already-cleared slot stays cleared); then, for a normal return,
close and notify `socket.error('thread exited prematurely')`; for a
kill (`GreenletExit`), close without notifying; for any other fault,
close and notify that fault. -/
def TCPTendril.threadError (t : TCPState) (which : ThreadId)
    (exitKind : ThreadExit) : TCPState × List TCPEvent :=
  let t1 : TCPState :=
    { t with
      recvThread := if which = ThreadId.recvT then false else t.recvThread
      sendThread := if which = ThreadId.sendT then false else t.sendThread }
  match exitKind with
  | .normal =>
      let r := TCPTendril.close t1
      (r.1, r.2 ++ [TCPEvent.notify (some "thread exited prematurely")])
  | .killed => TCPTendril.close t1
  | .fault msg =>
      let r := TCPTendril.close t1
      (r.1, r.2 ++ [TCPEvent.notify (some msg)])

/-- `TCPTendril._recv` (tcp.py lines 70-108) over a socket embedded as
the list of byte chunks successive `recv` calls return, with the
receive framer's buffered state threaded through.  Per iteration: on a
non-empty chunk, `_recv_frameify` (modelled from the spec, since it and
the `LineFramer` it uses live outside the available sources) decodes
the chunk into complete frames, each delivered to the application
state, and buffers the incomplete tail; on an empty chunk (peer EOF),
the loop kills the send greenlet if its slot is set, closes the socket,
runs the base `Tendril.close`, invokes `closed()` with no error, and
raises `GreenletExit` so that its own exit is processed as a kill.  The
idle pause/resume preamble (tcp.py lines 74-77) moves no data and is
elided; when the chunk list runs out the loop is still blocked in
`recv`. -/
def TCPTendril.recvLoop (sendThread : Bool) (framerState : List Char) :
    List (List Char) → List TCPEvent × Option ThreadExit
  | [] => ([], none)
  | chunk :: rest =>
    if chunk.isEmpty then
      ((if sendThread then [TCPEvent.killSend] else []) ++
       [TCPEvent.sockClose, TCPEvent.baseClose, TCPEvent.notify none],
       some ThreadExit.killed)
    else
      let r := lineToFrames framerState chunk
      let tail := TCPTendril.recvLoop sendThread r.2 rest
      (r.1.map TCPEvent.frame ++ tail.1, tail.2)

/-- The declared `ApplicationState` interface (application.py lines
20-45): the set of methods the abstract base class exposes to the
tendril — `close(tend)` and `recv_frame(tend, frame)`. -/
def applicationStateMethods : List String :=
  ["close", "recv_frame"]

/-- Result of a dynamic attribute lookup followed by a call: either the
name of the method invoked together with the error argument passed, or
an `AttributeError` when the object exposes no such method. -/
def callMethod (methods : List String) (name : String)
    (arg : Option String) : Except PyErr (String × Option String) :=
  if methods.contains name then .ok (name, arg) else .error (.attributeError name)

/-- `Tendril.closed` (tendril.py lines 122-132) with the attached
application state embedded as the list of method names it exposes
(`none` when no state is attached): a no-op without state, and
otherwise the dynamic call `self._state.closed(error)` — note the
method name `closed` and the single `error` argument. -/
def Tendril.closed (state : Option (List String)) (error : Option String) :
    Except PyErr (Option (String × Option String)) :=
  match state with
  | none => .ok none
  | some methods => (callMethod methods "closed" error).map some

/-- `Tendril.close` (tendril.py lines 116-120): invokes only the
connection-specific `_close` and never the `closed()` notification; its
event trace is therefore notification-free. -/
def Tendril.close_events : List TCPEvent :=
  [TCPEvent.baseClose]

/-- Number of formal parameters of `TCPTendril.wrap` as defined in the
source (tcp.py line 153): `def wrap(wrapper):` — a single parameter,
with no `self`. -/
def TCPTendril.wrapParamCount : Nat := 1

/-- Python bound-method call semantics: the receiver plus the explicit
arguments are matched against the function's formal parameters; a count
mismatch raises `TypeError` before the body runs. -/
def boundMethodCall {α : Type} (paramCount explicitArgs : Nat)
    (body : Except PyErr α) : Except PyErr α :=
  if 1 + explicitArgs = paramCount then body else .error .typeError

/-- The body of `TCPTendril.wrap` (tcp.py lines 153-190): its first
executable statement reads `self._recv_thread`, and `self` is an
unbound name in this function (the parameter list is just `wrapper`),
so the body raises `NameError` immediately. -/
def TCPTendril.wrapBody : Except PyErr TCPState :=
  .error (.nameError "self")

/-- Invocation `t.wrap(wrapper)` of `TCPTendril.wrap` on tendril state
`t` with one explicit wrapper argument: two values are passed to the
one-parameter function, so the call raises `TypeError`; even the
zero-explicit-argument call `t.wrap()` that passes the arity check
raises `NameError` from the body's unbound `self`. -/
def TCPTendril.wrapCall (_t : TCPState) (explicitArgs : Nat) :
    Except PyErr TCPState :=
  boundMethodCall TCPTendril.wrapParamCount explicitArgs TCPTendril.wrapBody

/- ---------------------------------------------------------------------
   TCPTendrilManager (tendril/tcp.py)
--------------------------------------------------------------------- -/

/-- `TCPTendrilManager.connect` (tcp.py lines 221-261): its first
statement is `super(TCPTendrilManager, self).connect(target, accept,
wrapper)`, whose argument `accept` is an unbound name (the parameter is
called `acceptor`), so evaluating the call's arguments raises
`NameError` before the base checks run and before
`socket.socket(...)` executes.  The result records the raised error and
the number of sockets created (always zero). -/
def TCPTendrilManager.connect (_running : Bool)
    (_target : String × Nat) : Except PyErr Nat × Nat :=
  (.error (.nameError "accept"), 0)

/-- One iteration of the accept loop of `TCPTendrilManager.listener`
(tcp.py lines 300-328): the `try` block's first statement is
`cli, addr = serv.accept()`, and `serv` is an unbound name (the
listening socket is bound to `sock`), so every iteration raises
`NameError` before a connection is accepted; the acceptor call and the
`cli.close()` cleanup are unreachable.  The pair returned is the
iteration's outcome and the number of acceptor invocations it made. -/
def TCPTendrilManager.acceptIter : Except PyErr Unit × Nat :=
  (.error (.nameError "serv"), 0)

/-- The accept loop of `TCPTendrilManager.listener` (tcp.py lines
300-328) from error-counter value `errThresh`: each iteration runs
`acceptIter`; on an exception the counter is incremented and, once it
reaches 10, the exception propagates out of the loop, otherwise the
loop continues.  Returns the number of acceptance attempts performed,
the total number of acceptor invocations, and the propagated error. -/
def TCPTendrilManager.acceptLoop (errThresh : Nat) : Nat × Nat × PyErr :=
  if _h : 10 ≤ errThresh + 1 then
    (1, TCPTendrilManager.acceptIter.2, .nameError "serv")
  else
    let tail := TCPTendrilManager.acceptLoop (errThresh + 1)
    (tail.1 + 1, tail.2.1 + TCPTendrilManager.acceptIter.2, tail.2.2)
termination_by 10 - errThresh
decreasing_by omega

/- ---------------------------------------------------------------------
   Helper lemmas
--------------------------------------------------------------------- -/

/-- Splitting a stream that starts with one complete, delimiter-free
frame followed by the delimiter yields that frame and then the split of
the remainder. -/
theorem splitFrames_frame_cons (f rest : List Char) (hf : lineDelim ∉ f) :
    splitFrames (f ++ lineDelim :: rest) =
      ((f :: (splitFrames rest).1, (splitFrames rest).2)) := by
  induction f with
  | nil => simp [splitFrames]
  | cons c f ih =>
    have hc : c ≠ lineDelim := fun h => hf (by simp [h])
    have ihh := ih (fun hm => hf (List.mem_cons_of_mem _ hm))
    simp only [List.cons_append, splitFrames, if_neg hc, List.append_eq, ihh]

/-- Round trip of the line framer on a stream of complete,
delimiter-free frames: decoding recovers exactly the frames with an
empty buffered remainder. -/
theorem splitFrames_encodeAll (fs : List (List Char))
    (h : ∀ f ∈ fs, lineDelim ∉ f) :
    splitFrames (lineEncodeAll fs) = (fs, []) := by
  induction fs with
  | nil => rfl
  | cons f fs ih =>
    have h1 : lineDelim ∉ f := h f (List.mem_cons_self f fs)
    have h2 : ∀ g ∈ fs, lineDelim ∉ g := fun g hg => h g (List.mem_cons_of_mem f hg)
    have : lineEncodeAll (f :: fs) = f ++ lineDelim :: lineEncodeAll fs := by
      simp [lineEncodeAll, lineToBytes]
    rw [this, splitFrames_frame_cons f _ h1, ih h2]

/-- Erasing a key from a registry leaves a registry without that key. -/
theorem regHasKey_regErase (reg : MgrRegistry) (key : MgrKey) :
    regHasKey (regErase reg key) key = false := by
  induction reg with
  | nil => rfl
  | cons kv tl ih =>
    by_cases hk : kv.1 = key
    · simp [regErase, regHasKey, hk, ih]
    · simp [regErase, regHasKey, hk, ih]

/- ---------------------------------------------------------------------
   Claim theorems
--------------------------------------------------------------------- -/

/-- C1: for a started stream tendril whose receive path reads the chunks
"frame1\n", "frame2\n" and then an empty read, the receive loop delivers
exactly the two frames, then kills the send greenlet, closes the socket,
runs the base close procedure, invokes the close-notification with no
error, and exits as a kill; the exit handler then only performs the
(notification-free) close, so no fault is surfaced and no further frame
is delivered afterward. -/
theorem c1_recv_eof_scenario :
    TCPTendril.recvLoop true [] ["frame1\n".toList, "frame2\n".toList, []] =
      ([TCPEvent.frame "frame1".toList, TCPEvent.frame "frame2".toList,
        TCPEvent.killSend, TCPEvent.sockClose, TCPEvent.baseClose,
        TCPEvent.notify none],
       some ThreadExit.killed) ∧
    TCPTendril.threadError
        { recvThread := true, sendThread := false, sock := false }
        ThreadId.recvT ThreadExit.killed =
      ({ recvThread := false, sendThread := false, sock := false },
       [TCPEvent.baseClose]) ∧
    [TCPEvent.baseClose].filter TCPEvent.isFrame = [] ∧
    [TCPEvent.baseClose].filter TCPEvent.isNotify = [] := by
  decide

/-- C2: `TCPTendril.close` is total (it cannot raise), emits no
close-notification on any state, and a second close on the resulting
state performs no further kill or socket close — only the base close —
leaving the state unchanged. -/
theorem c2_close_idempotent (t : TCPState) :
    (TCPTendril.close t).2.filter TCPEvent.isNotify = [] ∧
    TCPTendril.close (TCPTendril.close t).1 =
      ((TCPTendril.close t).1, [TCPEvent.baseClose]) ∧
    (TCPTendril.close (TCPTendril.close t).1).2.filter TCPEvent.isNotify
      = [] := by
  obtain ⟨r, s, k⟩ := t
  cases r <;> cases s <;> cases k <;> exact ⟨rfl, rfl, rfl⟩

/-- C3: `TCPTendril.wrap` is defined without a `self` parameter, so the
documented invocation `t.wrap(wrapper)` raises `TypeError` (two values
for one parameter), the arity-correct invocation `t.wrap()` raises
`NameError` on the body's unbound `self`, and no invocation can ever
return a tendril state — the socket is never replaced. -/
theorem c3_wrap_uncallable (t : TCPState) (n : Nat) :
    TCPTendril.wrapCall t 1 = .error .typeError ∧
    TCPTendril.wrapCall t 0 = .error (.nameError "self") ∧
    ∀ s : TCPState, TCPTendril.wrapCall t n ≠ .ok s := by
  refine ⟨rfl, rfl, fun s => ?_⟩
  simp only [TCPTendril.wrapCall, boundMethodCall, TCPTendril.wrapBody]
  split <;> simp

/-- C4: the accept loop of `TCPTendrilManager.listener`, started with a
zero error counter, performs exactly 10 acceptance attempts and then
propagates an error — but the error is the `NameError` from the unbound
name `serv`, raised before any connection is accepted, and the acceptor
is invoked zero times. -/
theorem c4_accept_loop_budget :
    TCPTendrilManager.acceptLoop 0 = (10, 0, PyErr.nameError "serv") := by
  simp [TCPTendrilManager.acceptLoop, TCPTendrilManager.acceptIter]

/-- C5: constructing a manager whose identity key is already present in
the live-manager registry raises `ValueError` and returns the registry
unchanged, overwriting nothing. -/
theorem c5_duplicate_construction (proto : String)
    (endpoint : Option (String × Nat)) (mgrs : MgrRegistry) (i : Nat)
    (h : regHasKey mgrs (proto, endpoint.getD ("", 0)) = true) :
    (TendrilManager.init proto endpoint mgrs i).1 =
      .error (.valueError "Identical TendrilManager already exists") ∧
    (TendrilManager.init proto endpoint mgrs i).2 = mgrs := by
  simp [TendrilManager.init, MgrState.managerKey, h]

/-- Witness for C5 at a concrete registry already holding the key
`("tcp", ("", 0))`. -/
theorem c5_duplicate_construction_witness :
    regHasKey [(("tcp", ("", 0)), 1)] ("tcp", (none : Option (String × Nat)).getD ("", 0)) = true ∧
    ((TendrilManager.init "tcp" none [(("tcp", ("", 0)), 1)] 2).1 =
        .error (.valueError "Identical TendrilManager already exists") ∧
     (TendrilManager.init "tcp" none [(("tcp", ("", 0)), 1)] 2).2 =
        [(("tcp", ("", 0)), 1)]) :=
  ⟨by decide, c5_duplicate_construction "tcp" none [(("tcp", ("", 0)), 1)] 2 (by decide)⟩

/-- C6: `start` on an already-running manager, or on a manager whose key
is already present among the running managers, raises `ValueError` and
leaves the manager state (running flag and listen-thread slot included)
and the running-registry unchanged; a successful `start` sets the
running flag, registers the manager among the running managers, and
stores a spawned listener greenlet linked to `stop`. -/
theorem c6_start_contract (m : MgrState) (reg : MgrRegistry) (i : Nat) :
    (m.running = true →
      TendrilManager.start m reg i =
        (.error (.valueError "TendrilManager already running"), m, reg)) ∧
    (m.running = false → regHasKey reg m.managerKey = true →
      TendrilManager.start m reg i =
        (.error (.valueError "Identical TendrilManager already exists"), m, reg)) ∧
    (m.running = false → regHasKey reg m.managerKey = false →
      TendrilManager.start m reg i =
        (.ok (),
         { m with running := true
                  listenThread := some { task := .listenerTask, links := [.stop] } },
         (m.managerKey, i) :: reg)) := by
  refine ⟨fun h1 => ?_, fun h1 h2 => ?_, fun h1 h2 => ?_⟩ <;>
    simp [TendrilManager.start, h1, *]

/-- Witness for C6: a running manager refuses `start` and changes
nothing; an idle manager with a free key starts successfully. -/
theorem c6_start_contract_witness :
    TendrilManager.start
        { proto := "tcp", endpoint := ("", 0), tendrils := [],
          running := true, listenThread := none } [] 0 =
      (.error (.valueError "TendrilManager already running"),
       { proto := "tcp", endpoint := ("", 0), tendrils := [],
         running := true, listenThread := none }, []) ∧
    TendrilManager.start
        { proto := "tcp", endpoint := ("", 0), tendrils := [],
          running := false, listenThread := none } [] 0 =
      (.ok (),
       { proto := "tcp", endpoint := ("", 0), tendrils := [],
         running := true,
         listenThread := some { task := .listenerTask, links := [.stop] } },
       [(("tcp", ("", 0)), 0)]) :=
  ⟨(c6_start_contract _ [] 0).1 rfl,
   (c6_start_contract _ [] 0).2.2 rfl (by decide)⟩

/-- C7 counterexample: on a freshly constructed manager (no listen
thread, as before `start`), `shutdown` does not leave the manager idle
— it raises `AttributeError` from `self._listen_thread.kill()` on the
absent thread handle, refuting the claim that `shutdown` succeeds
regardless of prior state. -/
theorem c7_shutdown_counterexample :
    (TendrilManager.shutdown
        { proto := "tcp", endpoint := ("", 0), tendrils := [],
          running := false, listenThread := none } []).1 =
      .error (.attributeError "kill") := by
  rfl

/-- C7 (amended): when a listen thread is present, `shutdown` removes
the manager from the running-registry, kills the thread, closes every
tracked tendril, clears the table, and resets the running flag and the
thread slot; the resulting registry no longer holds the manager's key.
A repeated `shutdown` on the resulting state, however, raises
`AttributeError` (the thread slot is now empty), so `shutdown` is not
idempotent. -/
theorem c7_shutdown_after_start (m : MgrState) (reg reg' : MgrRegistry)
    (t : GThread) (h : m.listenThread = some t) :
    TendrilManager.shutdown m reg =
      (.ok (),
       { m with tendrils := [], running := false, listenThread := none },
       regErase reg m.managerKey,
       m.tendrils.map Prod.snd) ∧
    regHasKey (regErase reg m.managerKey) m.managerKey = false ∧
    (TendrilManager.shutdown
        { m with tendrils := [], running := false, listenThread := none }
        reg').1 = .error (.attributeError "kill") := by
  refine ⟨?_, regHasKey_regErase reg m.managerKey, rfl⟩
  simp [TendrilManager.shutdown, h]

/-- Witness for C7 (amended) on a started manager tracking one
tendril. -/
theorem c7_shutdown_after_start_witness :
    TendrilManager.shutdown
        { proto := "tcp", endpoint := ("", 0),
          tendrils := [(("10.0.0.1", 5000), 7)], running := true,
          listenThread := some { task := .listenerTask, links := [.stop] } }
        [(("tcp", ("", 0)), 0)] =
      (.ok (),
       { proto := "tcp", endpoint := ("", 0), tendrils := [],
         running := false, listenThread := none },
       [], [7]) :=
  (c7_shutdown_after_start
      { proto := "tcp", endpoint := ("", 0),
        tendrils := [(("10.0.0.1", 5000), 7)], running := true,
        listenThread := some { task := .listenerTask, links := [.stop] } }
      [(("tcp", ("", 0)), 0)] [] { task := .listenerTask, links := [.stop] }
      rfl).1

/-- C8: `TCPTendrilManager.connect` raises `NameError` (from the unbound
name `accept` in its first statement) for every target and every
manager state, creating no socket; and the base sanity check of
`TendrilManager.connect` accepts any running manager without examining
the target, performing no address-family validation at all. -/
theorem c8_connect_broken (running : Bool) (target : String × Nat) :
    TCPTendrilManager.connect running target =
      (.error (.nameError "accept"), 0) ∧
    TendrilManager.connect_base true = .ok () :=
  ⟨rfl, rfl⟩

/-- C9: the close-notification `Tendril.closed` is a no-op when no
application state is attached and `Tendril.close` emits no
notification; but with an attached state conforming to the declared
`ApplicationState` interface (exposing `close` and `recv_frame`), the
notification raises `AttributeError` because the code calls the
undeclared method `closed` instead of the interface's `close`
callback. -/
theorem c9_closed_notification (err : Option String) :
    Tendril.closed none err = .ok none ∧
    Tendril.closed (some applicationStateMethods) err =
      .error (.attributeError "closed") ∧
    Tendril.close_events.filter TCPEvent.isNotify = [] :=
  ⟨rfl, rfl, rfl⟩

/-- C10 (amended): for any sequence of frames none of which contains the
delimiter, decoding their delimited concatenation recovers exactly the
frames (with nothing left buffered) and re-serializing the decoded
frames reconstructs the original byte stream; the delimiter-containing
case is excluded, since the framer neither rejects nor escapes it. -/
theorem c10_line_roundtrip (fs : List (List Char)) (X : List Char)
    (h1 : ∀ f ∈ fs, lineDelim ∉ f) (h2 : X = lineEncodeAll fs) :
    lineToFrames [] X = (fs, []) ∧
    lineEncodeAll (lineToFrames [] X).1 = X := by
  have hd : lineToFrames [] X = (fs, []) := by
    rw [h2]
    simpa [lineToFrames] using splitFrames_encodeAll fs h1
  exact ⟨hd, by rw [hd, h2]⟩

/-- Witness for C10 (amended) on the stream "ab\ncd\n". -/
theorem c10_line_roundtrip_witness :
    (∀ f ∈ [['a', 'b'], ['c', 'd']], lineDelim ∉ f) ∧
    lineToFrames [] "ab\ncd\n".toList = ([['a', 'b'], ['c', 'd']], []) ∧
    lineEncodeAll (lineToFrames [] "ab\ncd\n".toList).1 = "ab\ncd\n".toList :=
  ⟨by decide,
   (c10_line_roundtrip [['a', 'b'], ['c', 'd']] "ab\ncd\n".toList
      (by decide) (by decide)).1,
   (c10_line_roundtrip [['a', 'b'], ['c', 'd']] "ab\ncd\n".toList
      (by decide) (by decide)).2⟩

/-- C10 counterexample: a frame containing the delimiter is neither
rejected nor escaped — `lineToBytes` serializes it verbatim, and the
resulting stream decodes as two different frames: the stream is
silently corrupted. -/
theorem c10_delimiter_frame_corrupts :
    lineToBytes ['a', lineDelim, 'b'] = ['a', lineDelim, 'b', lineDelim] ∧
    (lineToFrames [] (lineToBytes ['a', lineDelim, 'b'])).1 = [['a'], ['b']] ∧
    [['a'], ['b']] ≠ [['a', lineDelim, 'b']] := by
  decide
